import Mathlib

/-!
Verification development for the `eddington-gui` excerpt: the File/Sheet
Selector widget (`src/eddington_gui/boxes/input_file_box.py`) and the Plot
Configuration Panel (`src/eddington_gui/boxes/plot_configuration_box.py`).

The widgets are GUI glue: they read widget state, validate simple numeric
strings and forward structured arguments to external libraries.  We embed
the widget state as explicit records and each event handler or property
getter as a pure function on that state; external collaborators (the file
dialog, the spreadsheet sheet enumerator, the dataset reader, the Python
`float` parser, the caller-supplied additional-instructions callback) are
modelled as function parameters.  Exceptions are modelled with `Except`,
and side effects a handler produces (observer callbacks, modal error
dialogs) are returned as explicit event lists.
-/

/-- Model of Python `pathlib.PurePath.name` for ordinary relative/absolute
POSIX paths: the final path component (trailing slashes ignored). -/
def pathName (p : String) : String :=
  ((p.splitOn "/").filter (fun c => c ≠ "")).getLastD ""

/-- Model of Python `pathlib.PurePath.suffix`: the final dot-suffix of the
final component, empty when the only dot is leading (`.bashrc`) or trailing
(`a.`).  Follows CPython: `name[i:]` for `i` the index of the last dot when
`0 < i < len(name) - 1`, else `""`. -/
def pathSuffix (p : String) : String :=
  let cs := (pathName p).data
  let after := cs.reverse.takeWhile (fun c => c ≠ '.')
  let i := cs.length - 1 - after.length
  if 0 < i ∧ i < cs.length - 1 then ⟨'.' :: after.reverse⟩ else ""

/-- Modelled from the spec: the sentinel "no selection" option `NO_VALUE`
imported from `eddington_gui.consts`, a module absent from the excerpt.
The spec describes it only as a distinguished sentinel string prepended to
the sheet dropdown; its exact text is immaterial to every claim. -/
def NO_VALUE : String := "no selection"

namespace InputFileBox

/-- Widget state of one `InputFileBox` instance: the read-only path text
input, the sheet `Selection` (its items and enabled flag), the loaded
dataset (`__data_dict`, `None` until a sheet is read) and the observer
callbacks consulted by the `data_dict` setter.  `D` is the dataset type
produced by the external reader and `H` identifies a registered handler. -/
structure State (D H : Type) where
  inputFilePathValue : String
  selectSheetItems : List String
  selectSheetEnabled : Bool
  dataDict : Option D
  handlers : List H
  deriving DecidableEq, Repr

variable {D H : Type}

/-- The `sheets_options` property setter: `None` empties and disables the
sheet dropdown, a list populates and enables it. -/
def sheets_options (s : State D H) (options : Option (List String)) : State D H :=
  match options with
  | none => { s with selectSheetItems := [], selectSheetEnabled := false }
  | some opts => { s with selectSheetItems := opts, selectSheetEnabled := true }

/-- The `data_dict` property setter: stores the dataset and invokes every
registered handler with the new value, in registration order.  Returns the
new state together with the list of handler invocations. -/
def data_dict (s : State D H) (d : Option D) : State D H × List (H × Option D) :=
  ({ s with dataDict := d }, s.handlers.map (fun h => (h, d)))

/-- The outcome of a `select_file` call: the updated widget state and the
observer callbacks invoked during the call. -/
structure SelectFileResult (D H : Type) where
  state : State D H
  handlerCalls : List (H × Option D)
  deriving DecidableEq, Repr

/-- The `select_file` button handler.  `dialogResult` is the outcome of the
external `open_file_dialog` call: `none` models the `ValueError` raised on
cancellation (caught, handler returns with nothing changed), `some p` the
chosen path.  `sheetNamesOf` models the external `xlrd` sheet-name
enumeration.  On selection the path is stored, the dropdown is populated
(sentinel first) and enabled for a `.xlsx`/`.xls` suffix and emptied and
disabled otherwise, and the dataset is cleared through the `data_dict`
setter (so handlers fire with `none`). -/
def select_file (sheetNamesOf : String → List String)
    (dialogResult : Option String) (s : State D H) : SelectFileResult D H :=
  match dialogResult with
  | none => ⟨s, []⟩
  | some p =>
    let s1 := { s with inputFilePathValue := p }
    let s2 :=
      if pathSuffix p ∈ [".xlsx", ".xls"] then
        sheets_options s1 (some (NO_VALUE :: sheetNamesOf p))
      else
        sheets_options s1 none
    let r := data_dict s2 none
    ⟨r.1, r.2⟩

/-- The outcome of a `select_sheet` call: updated state, observer
invocations, and any modal error dialogs shown as (title, message) pairs. -/
structure SelectSheetResult (D H : Type) where
  state : State D H
  handlerCalls : List (H × Option D)
  errorDialogs : List (String × String)
  deriving DecidableEq, Repr

/-- The `select_sheet` dropdown handler.  `value` is the selected item.
`reader` models the external `read_data_from_excel`; its `Except.error ()`
case is the `InvalidDataFile` exception, the only one the handler catches.
The sentinel clears the dataset; otherwise the reader runs on the stored
file path and the sheet name, a success is stored, and an invalid-format
failure shows the modal dialog and clears the dataset.  The embedding is a
total function: the caught failure never escapes. -/
def select_sheet (reader : String → String → Except Unit D)
    (value : String) (s : State D H) : SelectSheetResult D H :=
  if value = NO_VALUE then
    let r := data_dict s none
    ⟨r.1, r.2, []⟩
  else
    match reader s.inputFilePathValue value with
    | Except.ok d =>
      let r := data_dict s (some d)
      ⟨r.1, r.2, []⟩
    | Except.error _ =>
      let msg := "\"" ++ value ++ "\" sheet in \"" ++ pathName s.inputFilePathValue
        ++ "\" has invalid syntax"
      let r := data_dict s none
      ⟨r.1, r.2, [("Invalid Input Source", msg)]⟩

/-- The `add_handler` method on the single-instance view of the state. -/
def add_handler (s : State D H) (h : H) : State D H :=
  { s with handlers := s.handlers ++ [h] }

/-- Multi-instance semantics of `InputFileBox`, faithful to the Python
class body.  `__handlers = []` is a class attribute that `add_handler`
mutates in place (`self.__handlers.append(...)`), so one list is shared by
every instance; `__data_dict` is only ever assigned through `self`, which
shadows the class attribute with a per-instance one, so datasets stay
per-instance.  `instances` holds each instance's `__data_dict`. -/
structure World (D H : Type) where
  classHandlers : List H
  instances : List (Option D)
  deriving DecidableEq, Repr

/-- `add_handler` called on instance `i`: the Python `append` mutates the
shared class-level list, so the instance index is ignored. -/
def add_handler_world (w : World D H) (_i : Nat) (h : H) : World D H :=
  { w with classHandlers := w.classHandlers ++ [h] }

/-- Assigning `data_dict` on instance `i`: the instance's own dataset is
replaced, and the setter invokes every handler on the shared class-level
list.  Returns the new world and the handler invocations. -/
def set_data_dict_world (w : World D H) (i : Nat) (d : Option D) :
    World D H × List (H × Option D) :=
  ({ w with instances := w.instances.set i d },
   w.classHandlers.map (fun h => (h, d)))

end InputFileBox

/-- Model of Python `str.title()` restricted to ASCII, as used on the plot
suffix: each cased (here: alphabetic) character is uppercased when the
previous character was not cased and lowercased otherwise. -/
def pyTitleAux : Bool → List Char → List Char
  | _, [] => []
  | prevCased, c :: cs =>
    if c.isAlpha then
      (if prevCased then c.toLower else c.toUpper) :: pyTitleAux true cs
    else
      c :: pyTitleAux false cs

/-- Python `str.title()` on a string (ASCII model). -/
def pyTitle (s : String) : String := ⟨pyTitleAux false s.data⟩

/-- Python `str.lower()` on a string (ASCII model). -/
def pyLower (s : String) : String := ⟨s.data.map Char.toLower⟩

/-- Python `str.replace(' ', '_')`: single-character replacement is a map
over the characters. -/
def replaceSpaces (s : String) : String :=
  ⟨s.data.map (fun c => if c = ' ' then '_' else c)⟩

namespace PlotConfigurationBox

/-- Widget state of a `PlotConfigurationBox`: the text inputs, the
switches, the visibility of the four custom-domain widgets (`true` models
`VISIBLE`), the legend switch (`none` when the panel was constructed
without legend support), the `__has_legend` flag, and the externally fed
defaults `__base_name`, `__xcolumn`, `__ycolumn` plus the constructor
argument `suffix`. -/
structure State where
  titleInput : String
  xlabelInput : String
  ylabelInput : String
  gridSwitch : Bool
  legendSwitch : Option Bool
  xDomainSwitch : Bool
  xMinTitleVisible : Bool
  xMinInput : String
  xMinInputVisible : Bool
  xMaxTitleVisible : Bool
  xMaxInput : String
  xMaxInputVisible : Bool
  xLogScaleSwitch : Bool
  yLogScaleSwitch : Bool
  hasLegend : Bool
  baseName : Option String
  xcolumn : Option String
  ycolumn : Option String
  suffix : String
  deriving DecidableEq, Repr

/-- The `__init__` constructor: every text input empty, every switch off,
the custom-domain widgets hidden, the legend switch created only when
`has_legend`, and no base name or column defaults. -/
def init (suffix : String) (has_legend : Bool) : State where
  titleInput := ""
  xlabelInput := ""
  ylabelInput := ""
  gridSwitch := false
  legendSwitch := if has_legend then some false else none
  xDomainSwitch := false
  xMinTitleVisible := false
  xMinInput := ""
  xMinInputVisible := false
  xMaxTitleVisible := false
  xMaxInput := ""
  xMaxInputVisible := false
  xLogScaleSwitch := false
  yLogScaleSwitch := false
  hasLegend := has_legend
  baseName := none
  xcolumn := none
  ycolumn := none
  suffix := suffix

/-- The `title` property: the explicit title input when non-empty, else
`f"{base_name} - {suffix.title()}"` when a base name is set, else the bare
suffix.  Always a string, never `None`. -/
def title (s : State) : String :=
  if s.titleInput ≠ "" then s.titleInput
  else
    match s.baseName with
    | some b => b ++ " - " ++ pyTitle s.suffix
    | none => s.suffix

/-- The `file_name` property: spaces replaced by underscores in the base
name and suffix, joined by an underscore when a base name is set, `.png`
appended, and the whole result lower-cased. -/
def file_name (s : State) : String :=
  let name :=
    match s.baseName with
    | some b => replaceSpaces b ++ "_" ++ replaceSpaces s.suffix ++ ".png"
    | none => replaceSpaces s.suffix ++ ".png"
  pyLower name

/-- The `xlabel` property: the explicit input when non-empty, else the
x column name when known, else `None`. -/
def xlabel (s : State) : Option String :=
  if s.xlabelInput ≠ "" then some s.xlabelInput
  else
    match s.xcolumn with
    | some c => some c
    | none => none

/-- The `ylabel` property: the explicit input when non-empty, else the
y column name when known, else `None`. -/
def ylabel (s : State) : Option String :=
  if s.ylabelInput ≠ "" then some s.ylabelInput
  else
    match s.ycolumn with
    | some c => some c
    | none => none

/-- The `grid` property. -/
def grid (s : State) : Bool := s.gridSwitch

/-- The `legend` property: `self.__legend_switch is not None and
self.__legend_switch.value`.  The conjunction short-circuits, so the value
is read only when the switch exists; the embedding is a total function. -/
def legend (s : State) : Bool :=
  match s.legendSwitch with
  | none => false
  | some v => v

/-- The `x_log_scale` property. -/
def x_log_scale (s : State) : Bool := s.xLogScaleSwitch

/-- The `y_log_scale` property. -/
def y_log_scale (s : State) : Bool := s.yLogScaleSwitch

/-- The `xmin` property.  `parse` models the Python builtin `float`:
`none` stands for the `ValueError` raised on an unparseable string, which
the property converts into the `EddingtonException` message (modelled by
`Except.error`).  Unset (`Except.ok none`) whenever the custom-domain
switch is off or the field is empty. -/
def xmin {F : Type} (parse : String → Option F) (s : State) :
    Except String (Option F) :=
  if ¬ s.xDomainSwitch ∨ s.xMinInput = "" then Except.ok none
  else
    match parse s.xMinInput with
    | some x => Except.ok (some x)
    | none => Except.error "X minimum value must a floating number"

/-- The `xmax` property; same shape as `xmin` on the maximum field. -/
def xmax {F : Type} (parse : String → Option F) (s : State) :
    Except String (Option F) :=
  if ¬ s.xDomainSwitch ∨ s.xMaxInput = "" then Except.ok none
  else
    match parse s.xMaxInput with
    | some x => Except.ok (some x)
    | none => Except.error "X maximum value must a floating number"

/-- Model of the external `eddington.interval.Interval` value. -/
structure IntervalModel (F : Type) where
  min_val : Option F
  max_val : Option F
  deriving DecidableEq, Repr

/-- The `interval` property: `Interval(min_val=self.xmin,
max_val=self.xmax)`; a validation failure in either bound propagates. -/
def interval {F : Type} (parse : String → Option F) (s : State) :
    Except String (IntervalModel F) := do
  let a ← xmin parse s
  let b ← xmax parse s
  return ⟨a, b⟩

/-- The keyword-argument bundle built by `get_plot_kwargs`.  `legend =
none` models the `legend` key being absent from the dictionary. -/
structure PlotKwargs (F : Type) where
  title_name : String
  xlabel : Option String
  ylabel : Option String
  grid : Bool
  x_log_scale : Bool
  y_log_scale : Bool
  xmin : Option F
  xmax : Option F
  legend : Option Bool
  deriving DecidableEq, Repr

/-- `get_plot_kwargs`: assembles the bundle from the derived getters; the
`xmin`/`xmax` reads may raise, which propagates out of the call.  The
`legend` key is added only when the panel was constructed with legend
support. -/
def get_plot_kwargs {F : Type} (parse : String → Option F) (s : State) :
    Except String (PlotKwargs F) := do
  let a ← xmin parse s
  let b ← xmax parse s
  return { title_name := title s
           xlabel := xlabel s
           ylabel := ylabel s
           grid := grid s
           x_log_scale := x_log_scale s
           y_log_scale := y_log_scale s
           xmin := a
           xmax := b
           legend := if s.hasLegend then some (legend s) else none }

/-- `on_fitting_function_load`: stores the fit function's display name as
the base name, `none` clearing it.  The argument is the external object's
`title_name`, or `none` when the function itself is `None`. -/
def on_fitting_function_load (titleName : Option String) (s : State) : State :=
  { s with baseName := titleName }

/-- `on_fitting_data_load`: stores the dataset's x/y column names as label
defaults, `none` clearing both. -/
def on_fitting_data_load (columns : Option (String × String)) (s : State) : State :=
  match columns with
  | none => { s with xcolumn := none, ycolumn := none }
  | some (xc, yc) => { s with xcolumn := some xc, ycolumn := some yc }

/-- `x_domain_switch_handler`: run after the switch value changes.  Switch
on: reveal the four custom-domain widgets.  Switch off: clear both bound
text fields and hide the four widgets. -/
def x_domain_switch_handler (s : State) : State :=
  if s.xDomainSwitch then
    { s with xMinTitleVisible := true, xMinInputVisible := true,
             xMaxTitleVisible := true, xMaxInputVisible := true }
  else
    { s with xMinInput := "", xMaxInput := "",
             xMinTitleVisible := false, xMinInputVisible := false,
             xMaxTitleVisible := false, xMaxInputVisible := false }

/-- One drawing instruction recorded on the external `FigureBuilder`. -/
inductive FigureInstruction where
  | addTitle (t : String)
  | addXlabel (l : String)
  | addYlabel (l : String)
  | addGrid
  | addLegend
  deriving DecidableEq, Repr

/-- The outcome of `build_figure_builder`: the instruction list of the
returned builder, and the invocations of the caller-supplied
`additional_instructions` callback, each recorded with the builder
contents at call time and the interval argument. -/
structure BuildResult (F : Type) where
  builder : List FigureInstruction
  additionalCalls : List (List FigureInstruction × IntervalModel F)
  deriving DecidableEq, Repr

/-- `build_figure_builder`: starts from a fresh builder; `self.title` is
always a string so the `is not None` guard on the title is always true;
the x/y labels are attached only when not `None`, grid and legend only
when their flags hold; finally `additional_instructions(figure_builder,
self.interval)` runs once (the callback may extend the builder; reading
`self.interval` may raise, which propagates). -/
def build_figure_builder {F : Type} (parse : String → Option F)
    (additional_instructions :
      List FigureInstruction → IntervalModel F → List FigureInstruction)
    (s : State) : Except String (BuildResult F) :=
  let fb := [FigureInstruction.addTitle (title s)]
  let fb :=
    fb ++ (match xlabel s with
           | some l => [FigureInstruction.addXlabel l]
           | none => [])
  let fb :=
    fb ++ (match ylabel s with
           | some l => [FigureInstruction.addYlabel l]
           | none => [])
  let fb := fb ++ (if grid s then [FigureInstruction.addGrid] else [])
  let fb := fb ++ (if legend s then [FigureInstruction.addLegend] else [])
  do
    let iv ← interval parse s
    return ⟨additional_instructions fb iv, [(fb, iv)]⟩

end PlotConfigurationBox

/-- C1: for every `select_file` call in which the user selects a file, the
chosen path is stored as `file_path`; for a `.xlsx`/`.xls` suffix the sheet
dropdown holds the sentinel followed by every sheet name in file order and
is enabled, otherwise it is emptied and disabled; in both cases the loaded
dataset is cleared (each registered handler seeing `none` once).  On
cancellation all state is left untouched. -/
theorem select_file_correct {D H : Type} (sheetNamesOf : String → List String)
    (s : InputFileBox.State D H) (p : String) :
    InputFileBox.select_file sheetNamesOf none s = ⟨s, []⟩ ∧
    (InputFileBox.select_file sheetNamesOf (some p) s).state.inputFilePathValue = p ∧
    (InputFileBox.select_file sheetNamesOf (some p) s).state.selectSheetItems =
      (if pathSuffix p ∈ [".xlsx", ".xls"] then NO_VALUE :: sheetNamesOf p else []) ∧
    ((InputFileBox.select_file sheetNamesOf (some p) s).state.selectSheetEnabled = true ↔
      pathSuffix p ∈ [".xlsx", ".xls"]) ∧
    (InputFileBox.select_file sheetNamesOf (some p) s).state.dataDict = none ∧
    (InputFileBox.select_file sheetNamesOf (some p) s).handlerCalls =
      s.handlers.map (fun h => (h, (none : Option D))) := by
  refine ⟨rfl, ?_, ?_, ?_, ?_, ?_⟩ <;>
    simp only [InputFileBox.select_file, InputFileBox.sheets_options,
      InputFileBox.data_dict] <;>
    split <;> simp_all

/-- C2: for every `select_sheet` call, choosing the sentinel clears the
dataset; otherwise the reader runs on the stored file path and sheet name —
a success is stored, and an invalid-format failure produces exactly one
modal dialog whose message names the sheet and the file while the dataset
is cleared (the failure never propagates: the embedding is total).  In
every case each registered handler is invoked once with the new value. -/
theorem select_sheet_correct {D H : Type} (reader : String → String → Except Unit D)
    (v : String) (s : InputFileBox.State D H) :
    (InputFileBox.select_sheet reader v s).state.dataDict =
      (if v = NO_VALUE then none
       else
         match reader s.inputFilePathValue v with
         | Except.ok d => some d
         | Except.error _ => none) ∧
    (InputFileBox.select_sheet reader v s).errorDialogs =
      (if v = NO_VALUE then []
       else
         match reader s.inputFilePathValue v with
         | Except.ok _ => []
         | Except.error _ =>
           [("Invalid Input Source",
             "\"" ++ v ++ "\" sheet in \"" ++ pathName s.inputFilePathValue
               ++ "\" has invalid syntax")]) ∧
    (InputFileBox.select_sheet reader v s).handlerCalls =
      s.handlers.map
        (fun h => (h, (InputFileBox.select_sheet reader v s).state.dataDict)) := by
  refine ⟨?_, ?_, ?_⟩ <;>
    simp only [InputFileBox.select_sheet, InputFileBox.data_dict] <;>
    split <;> try rfl
  all_goals (split <;> rfl)

/-- C6: the claim of per-instance handler ownership fails on the code
because `__handlers = []` is a class attribute mutated in place by
`add_handler`, hence shared by all instances.  Concretely: in a world of
two instances, registering handler `7` through instance `0` and then
changing instance `1`'s dataset to `some 5` invokes handler `7` (with
instance `1`'s new dataset), while only instance `1`'s dataset changed. -/
theorem handlers_shared_across_instances :
    (InputFileBox.set_data_dict_world
        (InputFileBox.add_handler_world
          (⟨[], [none, none]⟩ : InputFileBox.World Nat Nat) 0 7) 1 (some 5)).2
      = [(7, some 5)] ∧
    (InputFileBox.set_data_dict_world
        (InputFileBox.add_handler_world
          (⟨[], [none, none]⟩ : InputFileBox.World Nat Nat) 0 7) 1 (some 5)).1
      = ⟨[7], [none, some 5]⟩ := by
  refine ⟨rfl, rfl⟩

/-- C3: `xmin`/`xmax` return unset whenever the custom-domain switch is
off or the corresponding field is empty, regardless of field text; with
the switch on and a non-empty field, an unparseable entry raises the
validation failure whose message names the field ("X minimum" resp.
"X maximum"), and a parseable entry yields the parsed value.  The last
conjunct is the spec's example: an everywhere-failing parse (modelling
`float("abc")` raising `ValueError`) on field text "abc" with the switch
on raises the x-minimum message, whatever the other widgets hold. -/
theorem xmin_xmax_correct {F : Type} (parse : String → Option F)
    (s : PlotConfigurationBox.State) :
    PlotConfigurationBox.xmin parse s =
      (if ¬ s.xDomainSwitch ∨ s.xMinInput = "" then Except.ok none
       else
         match parse s.xMinInput with
         | some x => Except.ok (some x)
         | none => Except.error "X minimum value must a floating number") ∧
    PlotConfigurationBox.xmax parse s =
      (if ¬ s.xDomainSwitch ∨ s.xMaxInput = "" then Except.ok none
       else
         match parse s.xMaxInput with
         | some x => Except.ok (some x)
         | none => Except.error "X maximum value must a floating number") ∧
    PlotConfigurationBox.xmin (fun _ => (none : Option F))
        { s with xDomainSwitch := true, xMinInput := "abc" } =
      Except.error "X minimum value must a floating number" := by
  refine ⟨rfl, rfl, ?_⟩
  simp [PlotConfigurationBox.xmin]

/-- C4: after every toggle event of the custom-domain switch the handler
leaves both bound text fields cleared when the switch is now off (and
untouched when on), and each of the four related widgets (both labels and
both inputs) is visible exactly when the switch is on. -/
theorem x_domain_switch_handler_correct (s : PlotConfigurationBox.State) :
    (PlotConfigurationBox.x_domain_switch_handler s).xMinInput =
      (if s.xDomainSwitch then s.xMinInput else "") ∧
    (PlotConfigurationBox.x_domain_switch_handler s).xMaxInput =
      (if s.xDomainSwitch then s.xMaxInput else "") ∧
    (PlotConfigurationBox.x_domain_switch_handler s).xMinTitleVisible =
      s.xDomainSwitch ∧
    (PlotConfigurationBox.x_domain_switch_handler s).xMinInputVisible =
      s.xDomainSwitch ∧
    (PlotConfigurationBox.x_domain_switch_handler s).xMaxTitleVisible =
      s.xDomainSwitch ∧
    (PlotConfigurationBox.x_domain_switch_handler s).xMaxInputVisible =
      s.xDomainSwitch := by
  unfold PlotConfigurationBox.x_domain_switch_handler
  cases h : s.xDomainSwitch <;> simp

/-- C5 (counterexample): the claim says the fallback title is the whole
string "<base name> - <suffix>" title-cased, but the code title-cases only
the suffix (`f"{base_name} - {suffix.title()}"`).  With base name
"linear fit" (set through `on_fitting_function_load`), suffix "residuals"
and an empty title input, the code yields "linear fit - Residuals" while
title-casing the whole string yields "Linear Fit - Residuals". -/
theorem title_whole_titlecase_counterexample :
    PlotConfigurationBox.title
        (PlotConfigurationBox.on_fitting_function_load (some "linear fit")
          (PlotConfigurationBox.init "residuals" true))
      = "linear fit - Residuals" ∧
    pyTitle ("linear fit" ++ " - " ++ "residuals") = "Linear Fit - Residuals" ∧
    PlotConfigurationBox.title
        (PlotConfigurationBox.on_fitting_function_load (some "linear fit")
          (PlotConfigurationBox.init "residuals" true))
      ≠ pyTitle ("linear fit" ++ " - " ++ "residuals") := by
  refine ⟨rfl, by decide, by decide⟩

/-- C5 (amended): the title property returns the explicit title input when
non-empty; otherwise, when a base name is set, the base name, the literal
separator " - ", and the suffix title-cased (only the suffix is
title-cased); otherwise the bare suffix.  The spec's example holds: base
name "Linear Fit", suffix "residuals", empty title input gives
"Linear Fit - Residuals". -/
theorem title_correct (s : PlotConfigurationBox.State) :
    PlotConfigurationBox.title s =
      (if s.titleInput ≠ "" then s.titleInput
       else
         match s.baseName with
         | some b => b ++ " - " ++ pyTitle s.suffix
         | none => s.suffix) ∧
    PlotConfigurationBox.title
        (PlotConfigurationBox.on_fitting_function_load (some "Linear Fit")
          (PlotConfigurationBox.init "residuals" true))
      = "Linear Fit - Residuals" := by
  refine ⟨rfl, by decide⟩

/-- C7: whenever the `xmin` and `xmax` reads succeed, `get_plot_kwargs`
returns exactly the bundle {title_name, xlabel, ylabel, grid, x_log_scale,
y_log_scale, xmin, xmax}, each entry the corresponding derived getter, and
the `legend` key is present (with the legend getter's value) precisely
when the panel was constructed with legend support (`legend = none`
modelling the key's absence). -/
theorem get_plot_kwargs_correct {F : Type} (parse : String → Option F)
    (s : PlotConfigurationBox.State) (a b : Option F)
    (ha : PlotConfigurationBox.xmin parse s = Except.ok a)
    (hb : PlotConfigurationBox.xmax parse s = Except.ok b) :
    PlotConfigurationBox.get_plot_kwargs parse s =
      Except.ok
        { title_name := PlotConfigurationBox.title s
          xlabel := PlotConfigurationBox.xlabel s
          ylabel := PlotConfigurationBox.ylabel s
          grid := PlotConfigurationBox.grid s
          x_log_scale := PlotConfigurationBox.x_log_scale s
          y_log_scale := PlotConfigurationBox.y_log_scale s
          xmin := a
          xmax := b
          legend :=
            if s.hasLegend then some (PlotConfigurationBox.legend s) else none } := by
  simp only [PlotConfigurationBox.get_plot_kwargs, ha, hb, bind, Except.bind,
    pure, Except.pure]

/-- Witness for C7 at the freshly constructed panel with suffix "fit" and
legend support, under a parse that never succeeds (irrelevant: the domain
switch is off, so both bounds read as unset). -/
theorem get_plot_kwargs_correct_witness :
    PlotConfigurationBox.get_plot_kwargs (fun _ => (none : Option Nat))
        (PlotConfigurationBox.init "fit" true)
      = Except.ok
        { title_name := PlotConfigurationBox.title (PlotConfigurationBox.init "fit" true)
          xlabel := PlotConfigurationBox.xlabel (PlotConfigurationBox.init "fit" true)
          ylabel := PlotConfigurationBox.ylabel (PlotConfigurationBox.init "fit" true)
          grid := PlotConfigurationBox.grid (PlotConfigurationBox.init "fit" true)
          x_log_scale :=
            PlotConfigurationBox.x_log_scale (PlotConfigurationBox.init "fit" true)
          y_log_scale :=
            PlotConfigurationBox.y_log_scale (PlotConfigurationBox.init "fit" true)
          xmin := none
          xmax := none
          legend :=
            if (PlotConfigurationBox.init "fit" true).hasLegend then
              some (PlotConfigurationBox.legend (PlotConfigurationBox.init "fit" true))
            else none } :=
  get_plot_kwargs_correct (fun _ => none) (PlotConfigurationBox.init "fit" true)
    none none rfl rfl

/-- C8 (counterexample): the claim says no instruction is attached for an
empty title, but the code guards the title with `is not None` and the
`title` property always returns a string, so an empty derived title still
attaches `add_title("")`.  On the freshly constructed panel with empty
suffix (empty title input, no base name) the derived title is `""` and the
built figure builder nonetheless carries `addTitle ""` — and the callback
received a builder already carrying it. -/
theorem build_figure_builder_empty_title_counterexample :
    PlotConfigurationBox.title (PlotConfigurationBox.init "" false) = "" ∧
    PlotConfigurationBox.build_figure_builder (fun _ => (none : Option Nat))
        (fun fb _ => fb) (PlotConfigurationBox.init "" false)
      = Except.ok
          ⟨[PlotConfigurationBox.FigureInstruction.addTitle ""],
           [([PlotConfigurationBox.FigureInstruction.addTitle ""],
             ⟨none, none⟩)]⟩ := by
  refine ⟨rfl, rfl⟩

/-- C8 (amended): `build_figure_builder` starts from a fresh builder and
attaches the title instruction unconditionally (the derived title is never
unset, only possibly empty), the x/y-label instructions exactly when the
corresponding derived label is set, and the grid/legend instructions
exactly when the corresponding flag is true; it then invokes the
caller-supplied additional-instructions callback exactly once, with that
builder and the derived axis interval, the callback's extension of the
builder being the returned builder.  A validation failure while deriving
the interval propagates instead. -/
theorem build_figure_builder_correct {F : Type} (parse : String → Option F)
    (ai : List PlotConfigurationBox.FigureInstruction →
      PlotConfigurationBox.IntervalModel F →
      List PlotConfigurationBox.FigureInstruction)
    (s : PlotConfigurationBox.State) :
    PlotConfigurationBox.build_figure_builder parse ai s =
      (match PlotConfigurationBox.interval parse s with
       | Except.error e => Except.error e
       | Except.ok iv =>
         let pre :=
           [PlotConfigurationBox.FigureInstruction.addTitle
              (PlotConfigurationBox.title s)]
           ++ (match PlotConfigurationBox.xlabel s with
               | some l => [PlotConfigurationBox.FigureInstruction.addXlabel l]
               | none => [])
           ++ (match PlotConfigurationBox.ylabel s with
               | some l => [PlotConfigurationBox.FigureInstruction.addYlabel l]
               | none => [])
           ++ (if PlotConfigurationBox.grid s then
                 [PlotConfigurationBox.FigureInstruction.addGrid]
               else [])
           ++ (if PlotConfigurationBox.legend s then
                 [PlotConfigurationBox.FigureInstruction.addLegend]
               else [])
         Except.ok ⟨ai pre iv, [(pre, iv)]⟩) := by
  unfold PlotConfigurationBox.build_figure_builder
  cases h : PlotConfigurationBox.interval parse s <;>
    simp [h, bind, Except.bind, pure, Except.pure]

/-- C9: the `file_name` property is the suffix with spaces replaced by
underscores, suffixed with ".png", prefixed (joined with an underscore) by
the base name with spaces replaced by underscores when a base name is set,
the whole result lower-cased; and on the fresh panel with no base name and
suffix "fit" it equals "fit.png". -/
theorem file_name_correct (s : PlotConfigurationBox.State) :
    PlotConfigurationBox.file_name s =
      pyLower
        ((match s.baseName with
          | some b => replaceSpaces b ++ "_" ++ replaceSpaces s.suffix
          | none => replaceSpaces s.suffix) ++ ".png") ∧
    PlotConfigurationBox.file_name (PlotConfigurationBox.init "fit" true)
      = "fit.png" := by
  constructor
  · cases hb : s.baseName <;> simp [PlotConfigurationBox.file_name, hb]
  · decide

/-- C10: a panel constructed with `has_legend = False` has no legend
switch, and for every state whose legend switch is absent — whatever every
other widget holds — the `legend` property is total and returns `false`
(the short-circuit `is not None and ...` never dereferences the absent
switch; the embedding is a total function). -/
theorem legend_total_without_legend_support (sfx : String)
    (s : PlotConfigurationBox.State) :
    (PlotConfigurationBox.init sfx false).legendSwitch = none ∧
    PlotConfigurationBox.legend { s with legendSwitch := none } = false := by
  refine ⟨rfl, rfl⟩
